import Mathlib

/-!
Verification development for the Trustlink escrow core.

The definitions below are a shallow embedding of the Python source:
  escrow/services.py          (EscrowService)
  escrow/dispute_service.py   (DisputeResolutionService)
  escrow/payment_service.py   (PaymentService.verify_webhook_signature)
  groups/verification_service.py (GroupVerificationService)
  escrow/models.py, groups/models.py (field and choice definitions)

Django model rows become Lean structures; the mutable database row for one
escrow transaction (together with its 1:1 dispute case, its 1:1 verification
result, its webhook records and its audit log) becomes one explicit state
value threaded through the service functions.  Timestamps are natural
numbers supplied by the caller (the code uses timezone.now()); status and
action enumerations follow the model choices; fields the code stores as
strings stay strings.  Audit-log details dictionaries are projected to the
fields the development reasons about (acting user, amount, currency).
-/

namespace Trustlink

/-- Status choices of EscrowTransaction (escrow/models.py STATUS_CHOICES). -/
inductive TxStatus where
  | PENDING
  | FUNDED
  | AWAITING_TRANSFER
  | VERIFYING
  | COMPLETED
  | REFUNDED
  | DISPUTED
  | CANCELLED
deriving DecidableEq, Repr

/-- Status choices of DisputeCase (escrow/models.py STATUS_CHOICES). -/
inductive DisputeStatus where
  | OPEN
  | INVESTIGATING
  | AWAITING_RULING
  | RESOLVED
  | CLOSED
deriving DecidableEq, Repr

/-- Action choices of AuditLog (escrow/models.py ACTION_CHOICES), restricted
to the ones the services write. -/
inductive AuditAction where
  | ESCROW_CREATED
  | PAYMENT_RECEIVED
  | TRANSFER_STARTED
  | FUNDS_RELEASED
  | FUNDS_REFUNDED
  | DISPUTE_OPENED
  | DISPUTE_RESOLVED
deriving DecidableEq, Repr

/-- Result choices of GroupVerificationResult (groups/models.py). -/
inductive VerResult where
  | PENDING
  | PASSED
  | FAILED
  | MANUAL_REVIEW
deriving DecidableEq, Repr

/-- One AuditLog row.  The details JSON is projected to the acting user
(None = system), and to the amount and currency recorded for the money
movement actions (ESCROW_CREATED, FUNDS_RELEASED, FUNDS_REFUNDED). -/
structure AuditEntry where
  action : AuditAction
  user : Option Nat
  amount : Option Int
  currency : Option String
deriving DecidableEq, Repr

/-- Helper building one AuditLog row. -/
def mkAudit (action : AuditAction) (user : Option Nat) (amount : Option Int)
    (currency : Option String) : AuditEntry :=
  { action := action, user := user, amount := amount, currency := currency }

/-- One DisputeCase row (escrow/models.py).  The ruling is stored as the
string handed to DisputeResolutionService.resolve_dispute, mirroring the
CharField; null until first written. -/
structure Dispute where
  status : DisputeStatus
  openedBy : Nat
  description : String
  ruling : Option String
  resolutionNotes : String
  resolvedBy : Option Nat
  resolvedAt : Option Nat
deriving DecidableEq, Repr

/-- One GroupVerificationResult row (groups/models.py). -/
structure StoredVerification where
  result : VerResult
  ownership_verified : Bool
  metadata_matches : Bool
  admin_permissions_correct : Bool
  failure_reasons : List String
deriving DecidableEq, Repr

/-- The data the external Telegram probe reports for one verification run
(GroupVerificationService.perform_full_verification).  reachable models
whether bot.get_chat / get_chat_administrators succeed at all; creatorId is
the user id of the admin with status creator, if one is identified;
chatTitle is the live title; botIsAdmin models whether the monitoring bot
appears in the admin list. -/
structure ProbeData where
  reachable : Bool
  creatorId : Option Nat
  chatTitle : String
  botIsAdmin : Bool
deriving DecidableEq, Repr

/-- The full mutable state attached to one escrow transaction: the
EscrowTransaction row itself, the referenced GroupListing fields the
services touch, and the dependent rows (dispute case, verification result,
webhook records, audit log). -/
structure EscrowState where
  status : TxStatus
  buyer : Nat
  seller : Nat
  listingStatus : String
  listingTitle : String
  listingSellerTid : Nat
  amount : Int
  currency : String
  paymentTxHash : Option String
  paymentAddress : Option String
  createdAt : Nat
  fundedAt : Option Nat
  transferDeadline : Option Nat
  completedAt : Option Nat
  notes : String
  dispute : Option Dispute
  verification : Option StoredVerification
  webhooks : List (String × Bool)
  audit : List AuditEntry
deriving DecidableEq, Repr

/-! ## GroupVerificationService (groups/verification_service.py) -/

/-- GroupVerificationService._verify_ownership: the group creator must be
identified and must match the telegram id of the listing seller. -/
def verify_ownership (listingSellerTid : Nat) (creatorId : Option Nat) :
    Bool × String :=
  match creatorId with
  | none => (false, "Could not identify the group creator.")
  | some cid =>
      if cid ≠ listingSellerTid then
        (false, "Seller (" ++ toString listingSellerTid
          ++ ") is not the group creator (" ++ toString cid ++ ").")
      else
        (true, "Seller is confirmed as the group creator.")

/-- Characterwise lowercase conversion, modelling str.lower() applied to
group titles. -/
def lowercase (s : String) : String := String.mk (s.data.map Char.toLower)

/-- GroupVerificationService._verify_metadata: case-insensitive comparison
of the listing title with the live chat title. -/
def verify_metadata (listingTitle chatTitle : String) : Bool × String :=
  if lowercase listingTitle ≠ lowercase chatTitle then
    (false, "Group title mismatch. Expected " ++ listingTitle
      ++ ", found " ++ chatTitle ++ ".")
  else
    (true, "Group metadata matches the listing.")

/-- GroupVerificationService._verify_bot_status: the monitoring bot must be
in the admin list. -/
def verify_bot_status (botIsAdmin : Bool) : Bool × String :=
  if !botIsAdmin then
    (false, "The Trustlink bot is not an administrator in the group.")
  else
    (true, "Bot is confirmed as an administrator.")

/-- The failure reason recorded when the Telegram API cannot be reached
(perform_full_verification except branch). -/
def probeUnreachableReason : String := "Failed to connect to Telegram API."

/-- GroupVerificationService._save_verification_result for a run that
executed the three checks: update_or_create keyed on the transaction with
defaults for every field, so the stored row equals the run values whether
or not a prior row existed. -/
def save_verification_result (passed ownOk metaOk botOk : Bool)
    (reasons : List String) : StoredVerification :=
  { result := if passed then VerResult.PASSED else VerResult.FAILED
    ownership_verified := ownOk
    metadata_matches := metaOk
    admin_permissions_correct := botOk
    failure_reasons := reasons }

/-- GroupVerificationService._create_failed_verification_result: used on a
hard probe failure; update_or_create defaults cover only result and
failure_reasons, so the boolean sub-check columns keep the prior row values
when a row exists, and the model defaults (False) when one is created. -/
def create_failed_verification_result (prev : Option StoredVerification)
    (reasons : List String) : StoredVerification :=
  match prev with
  | some p => { p with result := VerResult.FAILED, failure_reasons := reasons }
  | none =>
      { result := VerResult.FAILED
        ownership_verified := false
        metadata_matches := false
        admin_permissions_correct := false
        failure_reasons := reasons }

/-- GroupVerificationService.perform_full_verification: fetch the live
group data (probe), run the three checks, consolidate, and persist the
result keyed on the transaction (prev is the existing row, if any).  A
probe failure short-circuits to a FAILED result. -/
def perform_full_verification (prev : Option StoredVerification)
    (listingTitle : String) (listingSellerTid : Nat) (probe : ProbeData) :
    StoredVerification :=
  if !probe.reachable then
    create_failed_verification_result prev [probeUnreachableReason]
  else
    let own := verify_ownership listingSellerTid probe.creatorId
    let meta := verify_metadata listingTitle probe.chatTitle
    let bot := verify_bot_status probe.botIsAdmin
    let allPassed := own.1 && meta.1 && bot.1
    let reasons := List.filterMap
      (fun (p : Bool × String) => if p.1 then none else some p.2)
      [own, meta, bot]
    save_verification_result allPassed own.1 meta.1 bot.1 reasons

/-! ## EscrowService (escrow/services.py) -/

/-- EscrowService.create_transaction: validates the inputs and creates the
PENDING transaction with its ESCROW_CREATED audit entry; validation
failures raise ValueError, modelled as Except.error. -/
def create_transaction (buyer seller : Nat) (listingStatus listingTitle : String)
    (listingSellerTid : Nat) (amount : Int) (currency : String) (now : Nat) :
    Except String EscrowState :=
  if buyer = seller then
    Except.error "Buyer and seller cannot be the same user"
  else if amount ≤ 0 then
    Except.error "Transaction amount must be positive"
  else if ¬(currency = "USDT" ∨ currency = "ETH" ∨ currency = "BTC") then
    Except.error "Unsupported currency"
  else if listingStatus ≠ "ACTIVE" then
    Except.error "Group listing is not active"
  else
    Except.ok
      { status := TxStatus.PENDING
        buyer := buyer
        seller := seller
        listingStatus := listingStatus
        listingTitle := listingTitle
        listingSellerTid := listingSellerTid
        amount := amount
        currency := currency
        paymentTxHash := none
        paymentAddress := none
        createdAt := now
        fundedAt := none
        transferDeadline := some (now + 7 * 86400)
        completedAt := none
        notes := ""
        dispute := none
        verification := none
        webhooks := []
        audit := [mkAudit AuditAction.ESCROW_CREATED (some buyer) (some amount) (some currency)] }

/-- EscrowService.start_transfer_process: FUNDED to AWAITING_TRANSFER with
one TRANSFER_STARTED audit entry attributed to the seller; any other state
is a logged no-op returning false. -/
def start_transfer_process (s : EscrowState) : Bool × EscrowState :=
  if s.status ≠ TxStatus.FUNDED then
    (false, s)
  else
    (true,
      { s with
          status := TxStatus.AWAITING_TRANSFER
          audit := s.audit ++ [mkAudit AuditAction.TRANSFER_STARTED (some s.seller) none none] })

/-- EscrowService.process_payment_received: valid only from PENDING
(otherwise a logged no-op returning false).  On a PENDING transaction it
records the payment fields, moves to FUNDED, stores the webhook as
processed, writes PAYMENT_RECEIVED, then synchronously runs the
verification gate.  A non-PASSED result moves the transaction to DISPUTED
with a note listing the failure reasons and returns false; a PASSED
result runs start_transfer_process and returns true. -/
def process_payment_received (s : EscrowState)
    (payment_tx_hash payment_address webhook_data : String) (now : Nat)
    (probe : ProbeData) : Bool × EscrowState :=
  if s.status ≠ TxStatus.PENDING then
    (false, s)
  else
    let s1 :=
      { s with
          paymentTxHash := some payment_tx_hash
          paymentAddress := some payment_address
          status := TxStatus.FUNDED
          fundedAt := some now
          webhooks := s.webhooks ++ [(webhook_data, true)]
          audit := s.audit ++ [mkAudit AuditAction.PAYMENT_RECEIVED none none none] }
    let vr := perform_full_verification s.verification s.listingTitle
      s.listingSellerTid probe
    let s2 := { s1 with verification := some vr }
    if vr.result ≠ VerResult.PASSED then
      (false,
        { s2 with
            status := TxStatus.DISPUTED
            notes := "Automated verification failed: "
              ++ String.intercalate ", " vr.failure_reasons })
    else
      let step := start_transfer_process s2
      (true, step.2)

/-- EscrowService.complete_transaction: valid only from VERIFYING or
AWAITING_TRANSFER; moves to COMPLETED, stamps completed_at, marks the
listing SOLD and writes FUNDS_RELEASED with the amount and currency; any
other state is a logged no-op returning false. -/
def complete_transaction (s : EscrowState) (now : Nat) : Bool × EscrowState :=
  if ¬(s.status = TxStatus.VERIFYING ∨ s.status = TxStatus.AWAITING_TRANSFER) then
    (false, s)
  else
    (true,
      { s with
          status := TxStatus.COMPLETED
          completedAt := some now
          listingStatus := "SOLD"
          audit := s.audit ++
            [mkAudit AuditAction.FUNDS_RELEASED none (some s.amount) (some s.currency)] })

/-- EscrowService.refund_transaction: blocked only in COMPLETED and
REFUNDED; otherwise moves to REFUNDED, stamps completed_at, rewrites the
notes and writes FUNDS_REFUNDED with the amount and currency. -/
def refund_transaction (s : EscrowState) (reason : String) (now : Nat) :
    Bool × EscrowState :=
  if s.status = TxStatus.COMPLETED ∨ s.status = TxStatus.REFUNDED then
    (false, s)
  else
    (true,
      { s with
          status := TxStatus.REFUNDED
          completedAt := some now
          notes := "Refunded: " ++ reason
          audit := s.audit ++
            [mkAudit AuditAction.FUNDS_REFUNDED none (some s.amount) (some s.currency)] })

/-- EscrowService.create_dispute guards duplicates with
hasattr(escrow_transaction, "disputecase").  The DisputeCase OneToOneField
declares related_name = "dispute_case" (escrow/models.py line 119), so the
reverse accessor is dispute_case and the attribute named disputecase never
exists: the check is constantly false regardless of whether a dispute row
exists. -/
def hasattr_disputecase (_ : EscrowState) : Bool := false

/-- EscrowService.create_dispute: the opener must be the buyer or the
seller; the (dead, see hasattr_disputecase) duplicate check would return
the existing case; otherwise the transaction is moved to DISPUTED, the
OPEN case is created and DISPUTE_OPENED is written.  When a case already
exists, DisputeCase.objects.create violates the OneToOne constraint, the
atomic block rolls back every staged change and the except handler returns
None. -/
def create_dispute (s : EscrowState) (opened_by : Nat) (description : String) :
    Option Dispute × EscrowState :=
  if ¬(opened_by = s.buyer ∨ opened_by = s.seller) then
    (none, s)
  else if hasattr_disputecase s then
    (s.dispute, s)
  else
    match s.dispute with
    | some _ => (none, s)
    | none =>
        let d : Dispute :=
          { status := DisputeStatus.OPEN
            openedBy := opened_by
            description := description
            ruling := none
            resolutionNotes := ""
            resolvedBy := none
            resolvedAt := none }
        (some d,
          { s with
              status := TxStatus.DISPUTED
              dispute := some d
              audit := s.audit ++
                [mkAudit AuditAction.DISPUTE_OPENED (some opened_by) none none] })

/-! ## DisputeResolutionService (escrow/dispute_service.py) -/

/-- DisputeResolutionService.resolve_dispute: requires the underlying
transaction to be DISPUTED (otherwise false without mutation).  It first
saves the dispute as RESOLVED with the ruling, resolver, notes and
resolved_at, then executes the ruling: FAVOR_SELLER calls
complete_transaction, FAVOR_BUYER calls refund_transaction, PARTIAL_REFUND
marks the transaction COMPLETED and writes DISPUTE_RESOLVED, NO_ACTION
reverts the transaction to AWAITING_TRANSFER or PENDING depending on
funded_at, and an unknown ruling fails.  On failure the dispute status is
reverted to AWAITING_RULING (the other resolution fields are not cleared)
and false is returned. -/
def resolve_dispute (s : EscrowState) (ruling : String) (resolved_by : Nat)
    (notes : String) (now : Nat) : Bool × EscrowState :=
  match s.dispute with
  | none => (false, s)
  | some d =>
      if s.status ≠ TxStatus.DISPUTED then
        (false, s)
      else
        let d1 : Dispute :=
          { d with
              status := DisputeStatus.RESOLVED
              ruling := some ruling
              resolvedBy := some resolved_by
              resolutionNotes := notes
              resolvedAt := some now }
        let s1 := { s with dispute := some d1 }
        let step : Bool × EscrowState :=
          if ruling = "FAVOR_SELLER" then
            complete_transaction s1 now
          else if ruling = "FAVOR_BUYER" then
            refund_transaction s1
              ("Dispute resolved in favor of buyer. Notes: " ++ notes) now
          else if ruling = "PARTIAL_REFUND" then
            (true,
              { s1 with
                  status := TxStatus.COMPLETED
                  notes := "Dispute resolved with partial refund. Admin notes: "
                    ++ notes
                  audit := s1.audit ++
                    [mkAudit AuditAction.DISPUTE_RESOLVED none none none] })
          else if ruling = "NO_ACTION" then
            (true,
              { s1 with
                  status :=
                    if s1.status = TxStatus.DISPUTED then
                      if s1.fundedAt.isSome then TxStatus.AWAITING_TRANSFER
                      else TxStatus.PENDING
                    else s1.status
                  notes := "Dispute resolved - no action taken. Admin notes: "
                    ++ notes })
          else
            (false, s1)
        if step.1 then
          (true, step.2)
        else
          (false,
            { step.2 with
                dispute := some { d1 with status := DisputeStatus.AWAITING_RULING } })

/-! ## PaymentService.verify_webhook_signature (escrow/payment_service.py) -/

/-- Outcome of a Python call that can raise: a value or an exception. -/
inductive PyResult (α : Type) where
  | ok : α → PyResult α
  | exc : String → PyResult α
deriving DecidableEq, Repr

/-- PaymentService.verify_webhook_signature.  The whole body runs under a
try/except returning False, so the embedding is a total Bool.  The shared
secret comes from settings (none = unset, the empty string is also falsy
for the `if not webhook_secret` guard); computing the HMAC-SHA256 digest
and the constant-time comparison are abstracted as oracles that may raise. -/
def verify_webhook_signature (secret : Option String)
    (hmacSha256Hex : String → List Nat → PyResult String)
    (compareDigest : String → String → PyResult Bool)
    (payload : List Nat) (signature : String) : Bool :=
  match secret with
  | none => false
  | some sec =>
      if sec = "" then false
      else
        match hmacSha256Hex sec payload with
        | PyResult.exc _ => false
        | PyResult.ok expected =>
            match compareDigest signature expected with
            | PyResult.exc _ => false
            | PyResult.ok b => b

/-! ## Concrete states used by the theorems below -/

/-- Probe data for a clean verification run: creator matches the listing
seller (telegram id 2), titles match, the bot is admin. -/
def probePass : ProbeData :=
  { reachable := true, creatorId := some 2, chatTitle := "g", botIsAdmin := true }

/-- Probe data for an ownership mismatch: the creator is user 3, not the
listing seller 2. -/
def probeMismatch : ProbeData :=
  { reachable := true, creatorId := some 3, chatTitle := "g", botIsAdmin := true }

/-- Probe data for an unreachable Telegram API. -/
def probeDown : ProbeData :=
  { reachable := false, creatorId := none, chatTitle := "", botIsAdmin := false }

/-- The transaction produced by create_transaction for buyer 1, seller 2,
an ACTIVE listing titled g owned by telegram user 2, 150 USDT, at time 0. -/
def pendingState : EscrowState :=
  { status := TxStatus.PENDING
    buyer := 1
    seller := 2
    listingStatus := "ACTIVE"
    listingTitle := "g"
    listingSellerTid := 2
    amount := 150
    currency := "USDT"
    paymentTxHash := none
    paymentAddress := none
    createdAt := 0
    fundedAt := none
    transferDeadline := some 604800
    completedAt := none
    notes := ""
    dispute := none
    verification := none
    webhooks := []
    audit := [mkAudit AuditAction.ESCROW_CREATED (some 1) (some 150) (some "USDT")] }

/-- The same transaction after its payment fields are set and it is FUNDED
(the state a transaction has between PAYMENT_RECEIVED and the next step). -/
def fundedState : EscrowState :=
  { pendingState with
      status := TxStatus.FUNDED
      fundedAt := some 10
      paymentTxHash := some "hash"
      paymentAddress := some "addr" }

/-- First openDispute call of the buyer on the funded transaction. -/
def firstDispute : Option Dispute × EscrowState :=
  create_dispute fundedState 1 "payment sent but no transfer"

/-- The funded transaction after the buyer opened a dispute: DISPUTED with
an OPEN case. -/
def disputedState : EscrowState := firstDispute.2

/-- The dispute case row held by disputedState. -/
def openCase : Dispute :=
  { status := DisputeStatus.OPEN
    openedBy := 1
    description := "payment sent but no transfer"
    ruling := none
    resolutionNotes := ""
    resolvedBy := none
    resolvedAt := none }

/-- A transaction that settled through another path while its dispute case
is still around (the stale-ruling scenario of the spec). -/
def staleState : EscrowState := { disputedState with status := TxStatus.COMPLETED }

/-- Number of audit entries with a given action tag. -/
def countAction (l : List AuditEntry) (a : AuditAction) : Nat :=
  (l.filter (fun e => e.action = a)).length

/-! ## Claims -/

/-- C4: for every transaction not in PENDING, process_payment_received is a
benign no-op: it returns false and leaves the whole transaction state
(status, funded_at, payment fields, webhooks, audit) unchanged. -/
theorem c4_fund_requires_pending (s : EscrowState)
    (h a w : String) (now : Nat) (probe : ProbeData)
    (hs : s.status ≠ TxStatus.PENDING) :
    process_payment_received s h a w now probe = (false, s) := by
  unfold process_payment_received
  simp [hs]

/-- C4 witness: a duplicate funding signal on the already FUNDED state is
rejected with no mutation. -/
theorem c4_witness :
    fundedState.status ≠ TxStatus.PENDING ∧
    process_payment_received fundedState "h2" "a2" "w2" 99 probePass =
      (false, fundedState) :=
  ⟨by decide,
   c4_fund_requires_pending fundedState "h2" "a2" "w2" 99 probePass (by decide)⟩

/-- C5: complete_transaction succeeds exactly from VERIFYING or
AWAITING_TRANSFER; on success it moves to COMPLETED, stamps completed_at,
marks the listing SOLD and appends one FUNDS_RELEASED entry carrying the
amount and currency; from any other state it returns false and leaves the
state unchanged. -/
theorem c5_complete_exact_guard (s : EscrowState) (now : Nat) :
    (complete_transaction s now).1 =
      decide (s.status = TxStatus.VERIFYING ∨ s.status = TxStatus.AWAITING_TRANSFER) ∧
    (complete_transaction s now).2 =
      (if s.status = TxStatus.VERIFYING ∨ s.status = TxStatus.AWAITING_TRANSFER then
        { s with
            status := TxStatus.COMPLETED
            completedAt := some now
            listingStatus := "SOLD"
            audit := s.audit ++
              [mkAudit AuditAction.FUNDS_RELEASED none (some s.amount) (some s.currency)] }
      else s) := by
  unfold complete_transaction
  by_cases hc : s.status = TxStatus.VERIFYING ∨ s.status = TxStatus.AWAITING_TRANSFER
  · simp [hc]
  · simp [hc]

/-- C8: resolve_dispute on a dispute whose underlying transaction is not
currently DISPUTED returns false and mutates neither the transaction nor
the dispute case, whatever the ruling. -/
theorem c8_resolve_requires_disputed (s : EscrowState) (d : Dispute)
    (r : String) (rb : Nat) (nt : String) (now : Nat)
    (hd : s.dispute = some d) (hs : s.status ≠ TxStatus.DISPUTED) :
    resolve_dispute s r rb nt now = (false, s) := by
  unfold resolve_dispute
  rw [hd]
  simp [hs]

/-- C8 witness: a FAVOR_BUYER ruling arriving after the transaction already
settled (COMPLETED) is rejected without mutation. -/
theorem c8_witness :
    staleState.status ≠ TxStatus.DISPUTED ∧
    resolve_dispute staleState "FAVOR_BUYER" 9 "late ruling" 80 =
      (false, staleState) :=
  ⟨by decide,
   c8_resolve_requires_disputed staleState openCase "FAVOR_BUYER" 9 "late ruling" 80
     (by decide) (by decide)⟩

/-- Fund the freshly created transaction with a passing verification run:
it ends in AWAITING_TRANSFER. -/
def c1AfterFund : EscrowState :=
  (process_payment_received pendingState "hash" "addr" "wh" 10 probePass).2

/-- Complete the transfer: COMPLETED, listing SOLD, FUNDS_RELEASED written. -/
def c1AfterComplete : EscrowState := (complete_transaction c1AfterFund 20).2

/-- The buyer opens a dispute on the already COMPLETED transaction;
create_dispute has no transaction-state guard, so this succeeds. -/
def c1AfterDispute : EscrowState :=
  (create_dispute c1AfterComplete 1 "problem after completion").2

/-- An arbitrator rules FAVOR_BUYER on that dispute; refund_transaction only
blocks COMPLETED and REFUNDED, and the transaction is now DISPUTED, so the
refund goes through. -/
def c1AfterResolve : EscrowState :=
  (resolve_dispute c1AfterDispute "FAVOR_BUYER" 9 "refund the buyer" 30).2

/-- C1: the terminal states are not immutable and funds can be both released
and refunded.  Evaluating the code on the failing sequence create, fund
(passing verification), complete, openDispute, resolve(FAVOR_BUYER): the
transaction reaches COMPLETED with one FUNDS_RELEASED entry, openDispute
then moves the terminal transaction to DISPUTED, and the FAVOR_BUYER ruling
refunds it, so the final audit trail holds one FUNDS_RELEASED and one
FUNDS_REFUNDED entry for the same transaction. -/
theorem c1_release_and_refund_both_happen :
    (create_transaction 1 2 "ACTIVE" "g" 2 150 "USDT" 0).toOption = some pendingState ∧
    c1AfterComplete.status = TxStatus.COMPLETED ∧
    countAction c1AfterComplete.audit AuditAction.FUNDS_RELEASED = 1 ∧
    c1AfterDispute.status = TxStatus.DISPUTED ∧
    (resolve_dispute c1AfterDispute "FAVOR_BUYER" 9 "refund the buyer" 30).1 = true ∧
    c1AfterResolve.status = TxStatus.REFUNDED ∧
    countAction c1AfterResolve.audit AuditAction.FUNDS_RELEASED = 1 ∧
    countAction c1AfterResolve.audit AuditAction.FUNDS_REFUNDED = 1 := by
  decide

/-- C2: a second openDispute call for the same transaction does not return
the existing DisputeCase.  The duplicate guard tests the attribute
disputecase while the OneToOneField reverse accessor is dispute_case, so
the guard never fires; the attempted second insert violates the OneToOne
constraint, the atomic block rolls back and the call returns None. -/
theorem c2_second_open_dispute_returns_none :
    firstDispute.1.isSome = true ∧
    disputedState.dispute = some openCase ∧
    create_dispute disputedState 1 "payment sent but no transfer" =
      (none, disputedState) := by
  decide

/-- C6 counterexample: a successful resolve_dispute call with the NO_ACTION
ruling returns true yet appends no AuditLogEntry at all, contradicting the
claim that every successful operation writes exactly one entry. -/
theorem c6_no_action_writes_no_audit :
    (resolve_dispute disputedState "NO_ACTION" 9 "continue" 50).1 = true ∧
    (resolve_dispute disputedState "NO_ACTION" 9 "continue" 50).2.audit =
      disputedState.audit := by
  decide

/-- C7 counterexample: resolving the open dispute with FAVOR_SELLER fails
(complete_transaction rejects the DISPUTED transaction), the dispute is
rolled back to AWAITING_RULING, and the ruling field remains set to
FAVOR_SELLER even though the case is not RESOLVED. -/
theorem c7_rollback_keeps_ruling :
    (resolve_dispute disputedState "FAVOR_SELLER" 9 "seller wins" 60).1 = false ∧
    ((resolve_dispute disputedState "FAVOR_SELLER" 9 "seller wins" 60).2.dispute.map
      (fun d => (d.status, d.ruling))) =
      some (DisputeStatus.AWAITING_RULING, some "FAVOR_SELLER") := by
  decide

/-- C3: for a PENDING transaction, process_payment_received funds the
transaction and then gates on the verification run: it returns true exactly
when the run result is PASSED; on PASSED the transaction ends in
AWAITING_TRANSFER with PAYMENT_RECEIVED and TRANSFER_STARTED appended to
the audit log; otherwise it ends in DISPUTED with a note listing the
failure reasons, only PAYMENT_RECEIVED appended, and false returned; in
both cases funded_at is stamped. -/
theorem c3_fund_verification_gate (s : EscrowState)
    (h a w : String) (now : Nat) (probe : ProbeData)
    (hp : s.status = TxStatus.PENDING) :
    (process_payment_received s h a w now probe).1 =
      decide ((perform_full_verification s.verification s.listingTitle
        s.listingSellerTid probe).result = VerResult.PASSED) ∧
    (process_payment_received s h a w now probe).2.status =
      (if (perform_full_verification s.verification s.listingTitle
          s.listingSellerTid probe).result = VerResult.PASSED then
        TxStatus.AWAITING_TRANSFER
      else TxStatus.DISPUTED) ∧
    (process_payment_received s h a w now probe).2.notes =
      (if (perform_full_verification s.verification s.listingTitle
          s.listingSellerTid probe).result = VerResult.PASSED then
        s.notes
      else
        "Automated verification failed: " ++ String.intercalate ", "
          (perform_full_verification s.verification s.listingTitle
            s.listingSellerTid probe).failure_reasons) ∧
    (process_payment_received s h a w now probe).2.fundedAt = some now ∧
    (process_payment_received s h a w now probe).2.audit =
      (if (perform_full_verification s.verification s.listingTitle
          s.listingSellerTid probe).result = VerResult.PASSED then
        s.audit ++ [mkAudit AuditAction.PAYMENT_RECEIVED none none none,
          mkAudit AuditAction.TRANSFER_STARTED (some s.seller) none none]
      else
        s.audit ++ [mkAudit AuditAction.PAYMENT_RECEIVED none none none]) := by
  unfold process_payment_received
  by_cases hv : (perform_full_verification s.verification s.listingTitle
      s.listingSellerTid probe).result = VerResult.PASSED
  · simp [hp, hv, start_transfer_process]
  · simp [hp, hv]

/-- C3 witness: funding the concrete PENDING transaction with a passing
probe ends in AWAITING_TRANSFER, and with an ownership mismatch ends in
DISPUTED returning false. -/
theorem c3_witness :
    pendingState.status = TxStatus.PENDING ∧
    (process_payment_received pendingState "h" "a" "w" 10 probePass).2.status =
      TxStatus.AWAITING_TRANSFER ∧
    (process_payment_received pendingState "h" "a" "w" 10 probeMismatch).1 =
      false ∧
    (process_payment_received pendingState "h" "a" "w" 10 probeMismatch).2.status =
      TxStatus.DISPUTED := by
  refine ⟨rfl, ?_, ?_, ?_⟩
  · have h := (c3_fund_verification_gate pendingState "h" "a" "w" 10 probePass rfl).2.1
    rw [h]; decide
  · have h := (c3_fund_verification_gate pendingState "h" "a" "w" 10 probeMismatch rfl).1
    rw [h]; decide
  · have h := (c3_fund_verification_gate pendingState "h" "a" "w" 10 probeMismatch rfl).2.1
    rw [h]; decide

/-- C6 amended: the audit entries each operation actually writes.  create,
complete, refund and a first openDispute write exactly one entry whose
action matches the transition; a successful fund writes two
(PAYMENT_RECEIVED then TRANSFER_STARTED); a fund whose verification fails
writes only PAYMENT_RECEIVED and no entry for the transition to DISPUTED;
resolve_dispute writes one entry for FAVOR_BUYER (FUNDS_REFUNDED, via the
refund) and for PARTIAL_REFUND (DISPUTE_RESOLVED), and none for NO_ACTION,
for FAVOR_SELLER (whose fund movement always fails from DISPUTED) or for
an unknown ruling; every no-op leaves the log unchanged. -/
theorem c6_audit_per_operation :
    (∀ b sl ls lt tid amt cur now,
      (match create_transaction b sl ls lt tid amt cur now with
        | Except.ok s =>
            s.audit = [mkAudit AuditAction.ESCROW_CREATED (some b) (some amt) (some cur)]
        | Except.error _ => True)) ∧
    (∀ s h a w now probe,
      (process_payment_received s h a w now probe).2.audit =
        (if s.status = TxStatus.PENDING then
          (if (perform_full_verification s.verification s.listingTitle
              s.listingSellerTid probe).result = VerResult.PASSED then
            s.audit ++ [mkAudit AuditAction.PAYMENT_RECEIVED none none none,
              mkAudit AuditAction.TRANSFER_STARTED (some s.seller) none none]
          else
            s.audit ++ [mkAudit AuditAction.PAYMENT_RECEIVED none none none])
        else s.audit)) ∧
    (∀ s now,
      (complete_transaction s now).2.audit =
        (if s.status = TxStatus.VERIFYING ∨ s.status = TxStatus.AWAITING_TRANSFER then
          s.audit ++
            [mkAudit AuditAction.FUNDS_RELEASED none (some s.amount) (some s.currency)]
        else s.audit)) ∧
    (∀ s r now,
      (refund_transaction s r now).2.audit =
        (if s.status = TxStatus.COMPLETED ∨ s.status = TxStatus.REFUNDED then
          s.audit
        else
          s.audit ++
            [mkAudit AuditAction.FUNDS_REFUNDED none (some s.amount) (some s.currency)])) ∧
    (∀ s u dsc,
      (create_dispute s u dsc).2.audit =
        (if (u = s.buyer ∨ u = s.seller) ∧ s.dispute = none then
          s.audit ++ [mkAudit AuditAction.DISPUTE_OPENED (some u) none none]
        else s.audit)) ∧
    (∀ s r rb nt now,
      (resolve_dispute s r rb nt now).2.audit =
        (if s.dispute.isSome ∧ s.status = TxStatus.DISPUTED then
          (if r = "FAVOR_BUYER" then
            s.audit ++
              [mkAudit AuditAction.FUNDS_REFUNDED none (some s.amount) (some s.currency)]
          else if r = "PARTIAL_REFUND" then
            s.audit ++ [mkAudit AuditAction.DISPUTE_RESOLVED none none none]
          else s.audit)
        else s.audit)) := by
  refine ⟨?_, ?_, ?_, ?_, ?_, ?_⟩
  · intro b sl ls lt tid amt cur now
    unfold create_transaction
    by_cases h1 : b = sl
    · simp [h1]
    · by_cases h2 : amt ≤ 0
      · simp [h1, h2]
      · by_cases h3 : cur = "USDT" ∨ cur = "ETH" ∨ cur = "BTC"
        · by_cases h4 : ls = "ACTIVE"
          · simp [h1, h2, h3, h4]
          · simp [h1, h2, h3, h4]
        · simp [h1, h2, h3]
  · intro s h a w now probe
    unfold process_payment_received
    by_cases hp : s.status = TxStatus.PENDING
    · by_cases hv : (perform_full_verification s.verification s.listingTitle
          s.listingSellerTid probe).result = VerResult.PASSED
      · simp [hp, hv, start_transfer_process]
      · simp [hp, hv]
    · simp [hp]
  · intro s now
    unfold complete_transaction
    by_cases hc : s.status = TxStatus.VERIFYING ∨ s.status = TxStatus.AWAITING_TRANSFER
    · simp [hc]
    · simp [hc]
  · intro s r now
    unfold refund_transaction
    by_cases hc : s.status = TxStatus.COMPLETED ∨ s.status = TxStatus.REFUNDED
    · simp [hc]
    · simp [hc]
  · intro s u dsc
    unfold create_dispute
    by_cases hu : u = s.buyer ∨ u = s.seller
    · cases hd : s.dispute with
      | none => simp [hu, hd, hasattr_disputecase]
      | some d => simp [hu, hd, hasattr_disputecase]
    · simp [hu]
  · intro s r rb nt now
    unfold resolve_dispute
    cases hd : s.dispute with
    | none => simp [hd]
    | some d =>
      by_cases hs : s.status = TxStatus.DISPUTED
      · by_cases h1 : r = "FAVOR_SELLER"
        · simp [hd, hs, h1, complete_transaction]
        · by_cases h2 : r = "FAVOR_BUYER"
          · simp [hd, hs, h1, h2, refund_transaction, hs]
          · by_cases h3 : r = "PARTIAL_REFUND"
            · simp [hd, hs, h1, h2, h3]
            · by_cases h4 : r = "NO_ACTION"
              · simp [hd, hs, h1, h2, h3, h4]
              · simp [hd, hs, h1, h2, h3, h4]
      · simp [hd, hs]

/-- C7 amended: every resolve_dispute attempt on a DISPUTED transaction
saves the ruling (with resolver, notes and resolved_at) before the fund
movement runs; if the attempt succeeds the case ends RESOLVED, and if the
fund movement fails the case is rolled back to AWAITING_RULING with the
ruling still set rather than cleared, so the ruling is not null while the
case is not RESOLVED; on a transaction not in DISPUTED the case is
untouched. -/
theorem c7_ruling_lifecycle (s : EscrowState) (d : Dispute) (r : String)
    (rb : Nat) (nt : String) (now : Nat) (hd : s.dispute = some d) :
    (resolve_dispute s r rb nt now).2.dispute =
      (if s.status = TxStatus.DISPUTED then
        some { d with
          status :=
            if (resolve_dispute s r rb nt now).1 then DisputeStatus.RESOLVED
            else DisputeStatus.AWAITING_RULING
          ruling := some r
          resolvedBy := some rb
          resolutionNotes := nt
          resolvedAt := some now }
      else some d) := by
  unfold resolve_dispute
  rw [hd]
  by_cases hs : s.status = TxStatus.DISPUTED
  · by_cases h1 : r = "FAVOR_SELLER"
    · simp [hs, h1, complete_transaction]
    · by_cases h2 : r = "FAVOR_BUYER"
      · simp [hs, h1, h2, refund_transaction]
      · by_cases h3 : r = "PARTIAL_REFUND"
        · simp [hs, h1, h2, h3]
        · by_cases h4 : r = "NO_ACTION"
          · simp [hs, h1, h2, h3, h4]
          · simp [hs, h1, h2, h3, h4]
  · simp [hs, hd]

/-- C7 witness: a FAVOR_BUYER resolution of the concrete open dispute
succeeds and leaves the case RESOLVED with the ruling recorded. -/
theorem c7_witness :
    disputedState.dispute = some openCase ∧
    (resolve_dispute disputedState "FAVOR_BUYER" 9 "n" 70).2.dispute =
      some { status := DisputeStatus.RESOLVED
             openedBy := 1
             description := "payment sent but no transfer"
             ruling := some "FAVOR_BUYER"
             resolutionNotes := "n"
             resolvedBy := some 9
             resolvedAt := some 70 } := by
  refine ⟨by decide, ?_⟩
  have h := c7_ruling_lifecycle disputedState openCase "FAVOR_BUYER" 9 "n" 70 (by decide)
  rw [h]; decide

/-- C9: every verification run persists PASSED or FAILED, never PENDING;
the result is PASSED exactly when the probe was reachable and all three
recorded sub-checks (ownership, metadata, monitoring-bot admin status)
pass; the recorded failure reasons are the union of the individual
failure messages of the failed checks, and a probe that cannot be reached
at all is recorded as FAILED with the probe-unreachable reason. -/
theorem c9_verification_result_characterization
    (prev : Option StoredVerification) (title : String) (tid : Nat)
    (probe : ProbeData) :
    (perform_full_verification prev title tid probe).result ≠ VerResult.PENDING ∧
    (perform_full_verification prev title tid probe).result =
      (if probe.reachable
          && (perform_full_verification prev title tid probe).ownership_verified
          && (perform_full_verification prev title tid probe).metadata_matches
          && (perform_full_verification prev title tid probe).admin_permissions_correct
        then VerResult.PASSED else VerResult.FAILED) ∧
    (perform_full_verification prev title tid probe).failure_reasons =
      (if probe.reachable then
        List.filterMap
          (fun (p : Bool × String) => if p.1 then none else some p.2)
          [verify_ownership tid probe.creatorId,
            verify_metadata title probe.chatTitle,
            verify_bot_status probe.botIsAdmin]
      else [probeUnreachableReason]) := by
  unfold perform_full_verification
  cases hr : probe.reachable with
  | false =>
    unfold create_failed_verification_result
    cases prev with
    | none => simp
    | some p => simp
  | true =>
    unfold save_verification_result
    cases ho : (verify_ownership tid probe.creatorId).1 <;>
      cases hm : (verify_metadata title probe.chatTitle).1 <;>
        cases hb : (verify_bot_status probe.botIsAdmin).1 <;>
          simp [ho, hm, hb]

/-- C10: PaymentService.verify_webhook_signature authenticates a payload
only when every step succeeded: whenever it returns true the shared secret
was configured and non-empty, the HMAC-SHA256 digest was computed without
error, and the constant-time comparison ran without error and matched.
Contrapositively, a missing or empty secret, a digest failure or a
comparison failure all yield false (the embedding is a total boolean
function, mirroring the try/except that converts every exception into a
False return). -/
theorem c10_signature_fail_closed (secret : Option String)
    (hm : String → List Nat → PyResult String)
    (cd : String → String → PyResult Bool)
    (payload : List Nat) (sig : String)
    (h : verify_webhook_signature secret hm cd payload sig = true) :
    ∃ sec expected, secret = some sec ∧ sec ≠ "" ∧
      hm sec payload = PyResult.ok expected ∧
      cd sig expected = PyResult.ok true := by
  cases secret with
  | none => simp [verify_webhook_signature] at h
  | some sec =>
    simp only [verify_webhook_signature] at h
    by_cases he : sec = ""
    · rw [if_pos he] at h; simp at h
    · rw [if_neg he] at h
      split at h
      · simp at h
      · rename_i expected hdig
        split at h
        · simp at h
        · rename_i b hcmp
          exact ⟨sec, expected, rfl, he, hdig, by rw [hcmp, h]⟩

/-- A digest oracle that always succeeds with a fixed hex string. -/
def hmacConst : String → List Nat → PyResult String :=
  fun _ _ => PyResult.ok "ab12"

/-- A comparison oracle that succeeds and compares for equality. -/
def compareConst : String → String → PyResult Bool :=
  fun x y => PyResult.ok (decide (x = y))

/-- C10 witness: a configured secret, a successful digest and a matching
signature make verification return true, and the theorem recovers the
successful steps. -/
theorem c10_witness :
    verify_webhook_signature (some "k") hmacConst compareConst [1, 2] "ab12" = true ∧
    ∃ sec expected, (some "k" : Option String) = some sec ∧ sec ≠ "" ∧
      hmacConst sec [1, 2] = PyResult.ok expected ∧
      compareConst "ab12" expected = PyResult.ok true :=
  ⟨by decide,
   c10_signature_fail_closed (some "k") hmacConst compareConst [1, 2] "ab12" (by decide)⟩

end Trustlink
